import Mathlib

/-!
# Shallow embedding of the CHAT-MAIL socket layer

This file embeds the real-time event core of the CHAT-MAIL backend
(the socket connection handler together with the `Message` and `Call`
mongoose models) as executable Lean definitions, and proves properties
about the embedded handlers.

Modelling conventions:
* Identifiers (user ids, socket ids, message ids, call ids) are strings.
* Time is a natural number of milliseconds since the epoch (`Date.now()`).
* The persistence store is a list of records; `save` replaces the record
  with the same id, `findByIdAndUpdate` applies a field update to the
  record with the given id.  Following mongoose semantics, query updates
  (`findByIdAndUpdate`, `updateMany`) do not run document `pre('save')`
  middleware; only `create`/`save` do.
* A handler is a pure function from server state and event payload to a
  new server state together with the list of socket emissions it performs,
  in program order.  `io.to(sid).emit(ev, payload)` captures the payload
  value at the emission point (the socket.io encoder serialises the packet
  synchronously inside `emit`).
* Accessing `.toString()` on an absent (`undefined`) field throws a
  `TypeError`, which the handler's `catch` block converts into an error
  emission to the requesting socket; statements executed before the throw
  (in particular an earlier `await message.save()`) keep their effects.
-/

namespace ChatMail

abbrev UserId := String
abbrev SocketId := String
abbrev MessageId := String
abbrev CallId := String
abbrev Time := Nat

/-- Message delivery status (`messageSchema.status`). -/
inductive MsgStatus
  | sent
  | delivered
  | read
deriving DecidableEq

/-- `messageSchema.conversationType`. -/
inductive ConvType
  | direct
  | group
deriving DecidableEq

/-- `messageSchema.type`. -/
inductive MsgType
  | text
  | image
  | file
  | voice
deriving DecidableEq

/-- One entry of `messageSchema.reactions`. -/
structure Reaction where
  userId : UserId
  emoji : String
  createdAt : Time
deriving DecidableEq

/-- One entry of `messageSchema.editHistory`. -/
structure EditEntry where
  content : String
  editedAt : Time
deriving DecidableEq

/-- One entry of `messageSchema.deletedBy`. -/
structure DeleteMarker where
  userId : UserId
  deletedAt : Time
deriving DecidableEq

/-- One entry of `messageSchema.readBy`. -/
structure ReadReceipt where
  user : UserId
  readAt : Time
deriving DecidableEq

/-- A persisted message document (`src/models/Message.js`).
`receiver` is optional in the schema: group messages are created without
a receiver. -/
structure Message where
  id : MessageId
  sender : UserId
  receiver : Option UserId := none
  conversationType : ConvType := ConvType.direct
  groupId : Option String := none
  content : String
  type : MsgType := MsgType.text
  replyTo : Option MessageId := none
  isEdited : Bool := false
  editedAt : Option Time := none
  editHistory : List EditEntry := []
  isDeleted : Bool := false
  deletedBy : List DeleteMarker := []
  deletedForEveryone : Bool := false
  deletedAt : Option Time := none
  status : MsgStatus := MsgStatus.sent
  readAt : Option Time := none
  readBy : List ReadReceipt := []
  reactions : List Reaction := []
  createdAt : Time
deriving DecidableEq

/-- `callSchema.type`. -/
inductive CallType
  | audio
  | video
deriving DecidableEq

/-- `callSchema.status`. -/
inductive CallStatus
  | initiated
  | ringing
  | ongoing
  | ended
  | missed
  | rejected
  | busy
deriving DecidableEq

/-- `callSchema.endReason`. -/
inductive EndReason
  | completed
  | missed
  | rejected
  | busy
  | failed
  | cancelled
deriving DecidableEq

/-- A persisted call document (`src/models/Call.js`). -/
structure CallRecord where
  id : CallId
  caller : UserId
  receiver : UserId
  type : CallType := CallType.video
  status : CallStatus := CallStatus.initiated
  startTime : Option Time := none
  endTime : Option Time := none
  duration : Nat := 0
  endedBy : Option UserId := none
  endReason : Option EndReason := none
deriving DecidableEq

/-- The `callSchema.pre('save')` hook: when both `startTime` and `endTime`
are set, `duration = Math.floor((endTime - startTime) / 1000)`. -/
def callPreSave (c : CallRecord) : CallRecord :=
  match c.startTime, c.endTime with
  | some s, some e => { c with duration := (e - s) / 1000 }
  | _, _ => c

/-- Outbound socket event payloads (server to client), one constructor per
event emitted by the handlers modelled here. -/
inductive Payload
  | msgReceive (m : Message)
  | msgSent (m : Message)
  | msgError (err : String)
  | msgStatus (messageId : MessageId) (status : MsgStatus)
  | messagesRead (receiverId : UserId) (count : Nat)
  | msgReaction (messageId : MessageId) (reactions : List Reaction) (updatedBy : UserId)
  | reactionError (err : String)
  | msgEdited (messageId : MessageId) (content : String) (editedAt : Time)
  | msgDeleted (messageId : MessageId) (deleteType : String)
  | callError (err : String)
  | callIncoming (callId : CallId) (callerId : UserId) (callType : CallType)
  | callInitiated (callId : CallId) (receiverId : UserId)
  | callMissed (callId : CallId)
  | callAccepted (callId : CallId) (receiverId : UserId)
  | callStarted (callId : CallId)
  | callRejected (callId : CallId)
  | callEnded (callId : CallId) (endedBy : UserId)
  | callEndedReason (callId : CallId) (endedBy : UserId) (reason : String)
  | callCancelled (callId : CallId)
deriving DecidableEq

/-- One `io.to(target).emit(...)` / `socket.emit(...)` call. -/
structure Emission where
  target : SocketId
  payload : Payload
deriving DecidableEq

/-- In-memory entry of the `activeCalls` map: the call document held by the
handler closure together with the two participants. -/
structure ActiveCall where
  call : CallRecord
  participants : List UserId
deriving DecidableEq

/-- Whole-server state touched by the socket handlers: the `onlineUsers`
map, the `activeCalls` map, and the persisted `Message` / `Call`
collections. -/
structure ServerState where
  onlineUsers : List (UserId × SocketId)
  activeCalls : List (CallId × ActiveCall)
  messages : List Message
  calls : List CallRecord
deriving DecidableEq

/-- `Map.prototype.get`. -/
def getEntry {β : Type} (m : List (String × β)) (k : String) : Option β :=
  (m.find? (fun p => p.1 == k)).map (·.2)

/-- `Map.prototype.set` (overwrites any entry with the same key). -/
def setEntry {β : Type} (m : List (String × β)) (k : String) (v : β) :
    List (String × β) :=
  (k, v) :: m.filter (fun p => p.1 != k)

/-- `Map.prototype.delete`. -/
def delEntry {β : Type} (m : List (String × β)) (k : String) :
    List (String × β) :=
  m.filter (fun p => p.1 != k)

/-- `if (socketId) io.to(socketId).emit(payload)`. -/
def optEmit (o : Option SocketId) (p : Payload) : List Emission :=
  match o with
  | some sid => [⟨sid, p⟩]
  | none => []

/-- `Message.findById` over the persisted collection. -/
def findMessage (msgs : List Message) (mid : MessageId) : Option Message :=
  msgs.find? (fun m => m.id == mid)

/-- `document.save()`: replace the persisted document with the same id. -/
def saveMessage (msgs : List Message) (m : Message) : List Message :=
  msgs.map (fun x => if x.id = m.id then m else x)

/-- `Message.findByIdAndUpdate`: applies the update to the matching
document.  Query updates bypass document middleware. -/
def messageFindByIdAndUpdate (msgs : List Message) (mid : MessageId)
    (upd : Message → Message) : List Message :=
  msgs.map (fun m => if m.id = mid then upd m else m)

/-- `Call.findByIdAndUpdate`: applies the update to the matching document.
Query updates bypass document middleware, so `callPreSave` does not run
on this path. -/
def callFindByIdAndUpdate (db : List CallRecord) (id : CallId)
    (upd : CallRecord → CallRecord) : List CallRecord :=
  db.map (fun c => if c.id = id then upd c else c)

/-! ## Message handlers -/

/-- `message:send` handler.  Creates the message (status defaults to
`sent`), emits `message:receive` to the receiver's socket if the receiver
is online — with the payload captured *before* the status is updated —
then sets the status to `delivered` and saves, and finally emits
`message:sent` to the sender with the current document. -/
def handleMessageSend (st : ServerState) (userId : UserId) (sock : SocketId)
    (receiverId : UserId) (content : String) (type : MsgType)
    (replyTo : Option MessageId) (now : Time) (newId : MessageId) :
    ServerState × List Emission :=
  let message : Message :=
    { id := newId, sender := userId, receiver := some receiverId,
      content := content, type := type, replyTo := replyTo, createdAt := now }
  let db0 := st.messages ++ [message]
  match getEntry st.onlineUsers receiverId with
  | some receiverSocketId =>
      let delivered := { message with status := MsgStatus.delivered }
      ({ st with messages := saveMessage db0 delivered },
       [⟨receiverSocketId, Payload.msgReceive message⟩,
        ⟨sock, Payload.msgSent delivered⟩])
  | none =>
      ({ st with messages := db0 }, [⟨sock, Payload.msgSent message⟩])

/-- `message:read` handler (single message).  Unconditionally updates the
document's status and `readAt` via `findByIdAndUpdate`, then notifies the
sender's socket if online — with no already-read check. -/
def handleMessageRead (st : ServerState) (messageId : MessageId)
    (senderId : UserId) (now : Time) : ServerState × List Emission :=
  let messages := messageFindByIdAndUpdate st.messages messageId
    (fun m => { m with status := MsgStatus.read, readAt := some now })
  ({ st with messages := messages },
   optEmit (getEntry st.onlineUsers senderId)
     (Payload.msgStatus messageId MsgStatus.read))

/-- The `updateMany` filter of the `messages:read` handler:
`sender = senderId`, `receiver = userId`, `status ≠ 'read'`. -/
def unreadFrom (senderId userId : UserId) (m : Message) : Bool :=
  m.sender == senderId && m.receiver == some userId
    && !(m.status == MsgStatus.read)

/-- The `updateMany` update of the `messages:read` handler. -/
def markReadAt (now : Time) (m : Message) : Message :=
  { m with status := MsgStatus.read, readAt := some now }

/-- `messages:read` handler (bulk).  `updateMany` over unread messages from
`senderId` to the acting user; the sender is notified only when
`modifiedCount > 0`. -/
def handleMessagesRead (st : ServerState) (userId : UserId)
    (senderId : UserId) (now : Time) : ServerState × List Emission :=
  let modifiedCount := (st.messages.filter (unreadFrom senderId userId)).length
  let messages := st.messages.map
    (fun m => if unreadFrom senderId userId m then markReadAt now m else m)
  let ems :=
    match getEntry st.onlineUsers senderId with
    | some sid =>
        if modifiedCount > 0 then
          [⟨sid, Payload.messagesRead userId modifiedCount⟩]
        else []
    | none => []
  ({ st with messages := messages }, ems)

/-- The reaction toggle of the `message:react` handler: remove the
reaction if the user already reacted with exactly this emoji, otherwise
replace any reaction by this user with the new one. -/
def toggleReactions (reactions : List Reaction) (userId : UserId)
    (emoji : String) (now : Time) : List Reaction :=
  if reactions.any (fun r => r.userId == userId && r.emoji == emoji) then
    reactions.filter (fun r => !(r.userId == userId && r.emoji == emoji))
  else
    reactions.filter (fun r => r.userId != userId) ++ [⟨userId, emoji, now⟩]

/-- `message:react` handler.  Applies the toggle and saves, then resolves
`message.sender.toString()` and `message.receiver.toString()`.  For a
group message `receiver` is absent, so the second resolution throws after
the save; the catch block emits `reaction:error` to the requester and no
broadcast happens.  For a direct message the updated reaction set is sent
to the sender's and the receiver's sockets when online. -/
def handleMessageReact (st : ServerState) (userId : UserId) (sock : SocketId)
    (messageId : MessageId) (emoji : String) (now : Time) :
    ServerState × List Emission :=
  match findMessage st.messages messageId with
  | none => (st, [⟨sock, Payload.reactionError "Message not found"⟩])
  | some message =>
      let newReactions := toggleReactions message.reactions userId emoji now
      let saved := { message with reactions := newReactions }
      let st' := { st with messages := saveMessage st.messages saved }
      match message.receiver with
      | none =>
          (st', [⟨sock, Payload.reactionError
                   "Cannot read properties of undefined"⟩])
      | some receiverId =>
          let reactionData := Payload.msgReaction messageId newReactions userId
          (st',
           optEmit (getEntry st.onlineUsers message.sender) reactionData
             ++ optEmit (getEntry st.onlineUsers receiverId) reactionData)

/-- The 15-minute edit window, in milliseconds. -/
def fifteenMinutes : Nat := 15 * 60 * 1000

/-- The 1-hour delete-for-everyone window, in milliseconds. -/
def oneHour : Nat := 60 * 60 * 1000

/-- `message:edit` handler.  Sender check, then 15-minute window check,
then the receiver id is resolved *before* `save` — for a group message
this throws, so nothing is persisted and a generic error is emitted.  On
success the previous content is appended to `editHistory`, the document
is updated and saved, and `message:edited` goes to the receiver (if
online) and the requester. -/
def handleMessageEdit (st : ServerState) (userId : UserId) (sock : SocketId)
    (messageId : MessageId) (content : String) (now : Time) :
    ServerState × List Emission :=
  match findMessage st.messages messageId with
  | none => (st, [⟨sock, Payload.msgError "Message not found"⟩])
  | some message =>
      if message.sender ≠ userId then
        (st, [⟨sock, Payload.msgError "Unauthorized"⟩])
      else if now - message.createdAt > fifteenMinutes then
        (st, [⟨sock, Payload.msgError "Edit time limit exceeded (15 minutes)"⟩])
      else
        match message.receiver with
        | none =>
            (st, [⟨sock, Payload.msgError
                    "Cannot read properties of undefined"⟩])
        | some receiverId =>
            let edited := { message with
              editHistory := message.editHistory ++ [⟨message.content, now⟩],
              content := content, isEdited := true, editedAt := some now }
            let editData := Payload.msgEdited messageId content now
            ({ st with messages := saveMessage st.messages edited },
             optEmit (getEntry st.onlineUsers receiverId) editData
               ++ [⟨sock, editData⟩])

/-- `message:delete` handler.  The sender check precedes the scope branch,
so it applies to both `everyone` and `me`.  For `everyone`: 1-hour window
check, then the receiver id is resolved before any mutation (throws for a
group message), then the document is soft-deleted with the fixed
placeholder content and both parties are notified.  Any other
`deleteType` takes the `me` branch, which appends a per-user marker and
confirms to the requester only. -/
def handleMessageDelete (st : ServerState) (userId : UserId)
    (sock : SocketId) (messageId : MessageId) (deleteType : String)
    (now : Time) : ServerState × List Emission :=
  match findMessage st.messages messageId with
  | none => (st, [⟨sock, Payload.msgError "Message not found"⟩])
  | some message =>
      if message.sender ≠ userId then
        (st, [⟨sock, Payload.msgError "Unauthorized"⟩])
      else if deleteType = "everyone" then
        if now - message.createdAt > oneHour then
          (st, [⟨sock, Payload.msgError "Delete time limit exceeded (1 hour)"⟩])
        else
          match message.receiver with
          | none =>
              (st, [⟨sock, Payload.msgError
                      "Cannot read properties of undefined"⟩])
          | some receiverId =>
              let deleted := { message with
                deletedForEveryone := true, isDeleted := true,
                deletedAt := some now, content := "This message was deleted" }
              ({ st with messages := saveMessage st.messages deleted },
               optEmit (getEntry st.onlineUsers receiverId)
                   (Payload.msgDeleted messageId "everyone")
                 ++ [⟨sock, Payload.msgDeleted messageId "everyone"⟩])
      else
        let marked := { message with
          deletedBy := message.deletedBy ++ [⟨userId, now⟩] }
        ({ st with messages := saveMessage st.messages marked },
         [⟨sock, Payload.msgDeleted messageId "me"⟩])

/-! ## Call handlers -/

/-- `call:initiate` handler.  Fails with `User is offline` when the
receiver has no socket; fails with the busy error when the *receiver* is
a participant of any entry of `activeCalls` (the caller is not checked).
Otherwise it creates the call record with status `ringing` (`Call.create`
runs the save hook), stores the active-call entry, notifies the receiver
(`call:incoming`) and the caller (`call:initiated`). -/
def handleCallInitiate (st : ServerState) (userId : UserId) (sock : SocketId)
    (receiverId : UserId) (callType : CallType) (newCallId : CallId) :
    ServerState × List Emission :=
  match getEntry st.onlineUsers receiverId with
  | none => (st, [⟨sock, Payload.callError "User is offline"⟩])
  | some receiverSocketId =>
      if st.activeCalls.any (fun p => p.2.participants.contains receiverId) then
        (st, [⟨sock, Payload.callError "User is busy on another call"⟩])
      else
        let call := callPreSave
          { id := newCallId, caller := userId, receiver := receiverId,
            type := callType, status := CallStatus.ringing }
        ({ st with
            calls := st.calls ++ [call],
            activeCalls := setEntry st.activeCalls newCallId
              ⟨call, [userId, receiverId]⟩ },
         [⟨receiverSocketId, Payload.callIncoming newCallId userId callType⟩,
          ⟨sock, Payload.callInitiated newCallId receiverId⟩])

/-- The 30-second missed-call timeout scheduled by `call:initiate`.
`callerSock` and `receiverSocketId` are the socket ids captured by the
closure at initiation time.  The timeout re-reads `activeCalls` and acts
only when the entry still exists with in-memory status `ringing`: it
marks the persisted record `missed`, discards the session, and emits
`call:missed` to both parties; otherwise it does nothing. -/
def fireMissedTimeout (st : ServerState) (callId : CallId)
    (callerSock receiverSocketId : SocketId) : ServerState × List Emission :=
  match getEntry st.activeCalls callId with
  | some activeCall =>
      if activeCall.call.status = CallStatus.ringing then
        ({ st with
            calls := callFindByIdAndUpdate st.calls callId (fun c =>
              { c with status := CallStatus.missed,
                       endReason := some EndReason.missed }),
            activeCalls := delEntry st.activeCalls callId },
         [⟨callerSock, Payload.callMissed callId⟩,
          ⟨receiverSocketId, Payload.callMissed callId⟩])
      else (st, [])
  | none => (st, [])

/-- `call:accept` handler.  Requires only that the `activeCalls` entry
exists — the session status is not checked.  Updates the persisted record
to `ongoing` with `startTime = Date.now()` via `findByIdAndUpdate`, sets
the in-memory session status to `ongoing`, notifies the caller if online
(`call:accepted`) and confirms `call:started` to the accepter. -/
def handleCallAccept (st : ServerState) (userId : UserId) (sock : SocketId)
    (callId : CallId) (now : Time) : ServerState × List Emission :=
  match getEntry st.activeCalls callId with
  | none => (st, [⟨sock, Payload.callError "Call not found or expired"⟩])
  | some activeCall =>
      let calls := callFindByIdAndUpdate st.calls callId (fun c =>
        { c with status := CallStatus.ongoing, startTime := some now })
      let activeCalls := setEntry st.activeCalls callId
        { activeCall with
            call := { activeCall.call with status := CallStatus.ongoing } }
      ({ st with calls := calls, activeCalls := activeCalls },
       optEmit (getEntry st.onlineUsers activeCall.call.caller)
           (Payload.callAccepted callId userId)
         ++ [⟨sock, Payload.callStarted callId⟩])

/-- `call:reject` handler.  Silently returns when no session exists;
otherwise marks the record `rejected` with `endTime`, notifies the caller
if online, and discards the session. -/
def handleCallReject (st : ServerState) (callId : CallId) (now : Time) :
    ServerState × List Emission :=
  match getEntry st.activeCalls callId with
  | none => (st, [])
  | some activeCall =>
      let calls := callFindByIdAndUpdate st.calls callId (fun c =>
        { c with status := CallStatus.rejected,
                 endReason := some EndReason.rejected, endTime := some now })
      ({ st with calls := calls,
                 activeCalls := delEntry st.activeCalls callId },
       optEmit (getEntry st.onlineUsers activeCall.call.caller)
         (Payload.callRejected callId))

/-- `call:end` handler.  Silently returns when no session exists;
otherwise marks the record `ended`/`completed` with `endTime` and
`endedBy` via `findByIdAndUpdate` (the `pre('save')` duration hook does
not run on this path), notifies the other participant if online, and
discards the session. -/
def handleCallEnd (st : ServerState) (userId : UserId) (callId : CallId)
    (now : Time) : ServerState × List Emission :=
  match getEntry st.activeCalls callId with
  | none => (st, [])
  | some activeCall =>
      let calls := callFindByIdAndUpdate st.calls callId (fun c =>
        { c with status := CallStatus.ended,
                 endReason := some EndReason.completed,
                 endTime := some now, endedBy := some userId })
      let otherEms :=
        match activeCall.participants.find? (fun uid => uid != userId) with
        | some otherUserId =>
            optEmit (getEntry st.onlineUsers otherUserId)
              (Payload.callEnded callId userId)
        | none => []
      ({ st with calls := calls,
                 activeCalls := delEntry st.activeCalls callId }, otherEms)

/-- `call:cancel` handler.  Silently returns when no session exists;
otherwise marks the record `ended`/`cancelled` with `endTime`, notifies
the receiver if online, and discards the session. -/
def handleCallCancel (st : ServerState) (callId : CallId) (now : Time) :
    ServerState × List Emission :=
  match getEntry st.activeCalls callId with
  | none => (st, [])
  | some activeCall =>
      let calls := callFindByIdAndUpdate st.calls callId (fun c =>
        { c with status := CallStatus.ended,
                 endReason := some EndReason.cancelled, endTime := some now })
      ({ st with calls := calls,
                 activeCalls := delEntry st.activeCalls callId },
       optEmit (getEntry st.onlineUsers activeCall.call.receiver)
         (Payload.callCancelled callId))

/-- `disconnect` handler (the parts that touch the modelled state): every
active call containing the user is ended with reason `failed`, the other
participant is notified with reason `disconnected`, the sessions are
discarded, and the user is removed from `onlineUsers`.  The best-effort
user-status persistence and the `user:offline` broadcast touch no
modelled state and are elided. -/
def handleDisconnect (st : ServerState) (userId : UserId) (now : Time) :
    ServerState × List Emission :=
  let affected := st.activeCalls.filter
    (fun p => p.2.participants.contains userId)
  let ems := affected.foldl (fun acc p =>
    acc ++
      match p.2.participants.find? (fun uid => uid != userId) with
      | some otherUserId =>
          optEmit (getEntry st.onlineUsers otherUserId)
            (Payload.callEndedReason p.1 userId "disconnected")
      | none => []) []
  let calls := affected.foldl (fun cs p =>
    callFindByIdAndUpdate cs p.1 (fun c =>
      { c with status := CallStatus.ended,
               endReason := some EndReason.failed,
               endTime := some now })) st.calls
  ({ st with
      activeCalls := st.activeCalls.filter
        (fun p => !(p.2.participants.contains userId)),
      onlineUsers := delEntry st.onlineUsers userId,
      calls := calls }, ems)

/-! ## Concrete fixtures -/

/-- A direct message from A to B. -/
def mDirect : Message :=
  { id := "m1", sender := "A", receiver := some "B", content := "hi",
    createdAt := 0 }

/-- A group message by A: created without a `receiver`. -/
def mGroup : Message :=
  { id := "g1", sender := "A", conversationType := ConvType.group,
    groupId := some "G", content := "hello group", createdAt := 0 }

/-- `mDirect` after it has already been read. -/
def mReadAB : Message :=
  { mDirect with status := MsgStatus.read, readAt := some 500 }

/-- A and B online, one direct message persisted. -/
def stDirect : ServerState :=
  { onlineUsers := [("A", "sA"), ("B", "sB")], activeCalls := [],
    messages := [mDirect], calls := [] }

/-- A and B online, one group message persisted. -/
def stGroupMsg : ServerState :=
  { stDirect with messages := [mGroup] }

/-- A and B online, one already-read direct message persisted. -/
def stReadMsg : ServerState :=
  { stDirect with messages := [mReadAB] }

/-- A and B online, empty message store. -/
def stNoMessages : ServerState :=
  { stDirect with messages := [] }

/-- An ongoing call between A and X. -/
def callAX : CallRecord :=
  { id := "c0", caller := "A", receiver := "X",
    status := CallStatus.ongoing, startTime := some 100 }

/-- A, B, X online; A is mid-call with X; B is idle. -/
def stCallerBusy : ServerState :=
  { onlineUsers := [("A", "sA"), ("B", "sB"), ("X", "sX")],
    activeCalls := [("c0", ⟨callAX, ["A", "X"]⟩)],
    messages := [], calls := [callAX] }

/-- An ongoing call between B and X. -/
def callBX : CallRecord :=
  { id := "c0", caller := "B", receiver := "X",
    status := CallStatus.ongoing, startTime := some 100 }

/-- A, B, X online; B is mid-call with X. -/
def stReceiverBusy : ServerState :=
  { stCallerBusy with
      activeCalls := [("c0", ⟨callBX, ["B", "X"]⟩)],
      calls := [callBX] }

/-- A freshly initiated (ringing) call from A to B. -/
def ringingAB : CallRecord :=
  { id := "c1", caller := "A", receiver := "B",
    status := CallStatus.ringing }

/-- A and B online with the ringing call `c1` active. -/
def stRingingAB : ServerState :=
  { onlineUsers := [("A", "sA"), ("B", "sB")],
    activeCalls := [("c1", ⟨ringingAB, ["A", "B"]⟩)],
    messages := [], calls := [ringingAB] }

/-- `ringingAB` after it was accepted at t = 1000. -/
def ongoingAB : CallRecord :=
  { ringingAB with status := CallStatus.ongoing, startTime := some 1000 }

/-- A and B online with the ongoing call `c1` active. -/
def stOngoingAB : ServerState :=
  { stRingingAB with
      activeCalls := [("c1", ⟨ongoingAB, ["A", "B"]⟩)],
      calls := [ongoingAB] }

/-- The state after A initiates a video call to B (`c1`). -/
def stAfterInitiate : ServerState :=
  (handleCallInitiate stNoMessages "A" "sA" "B" CallType.video "c1").1

/-- The state after B accepts `c1` at t = 1000 ms. -/
def stAfterAccept : ServerState :=
  (handleCallAccept stAfterInitiate "B" "sB" "c1" 1000).1

/-- The state after A ends `c1` at t = 66000 ms. -/
def stAfterEnd : ServerState :=
  (handleCallEnd stAfterAccept "A" "c1" 66000).1

/-! ## Association-map lemmas -/

theorem getEntry_cons {β : Type} (a : String × β) (m : List (String × β))
    (k : String) :
    getEntry (a :: m) k = if a.1 = k then some a.2 else getEntry m k := by
  by_cases h : a.1 = k <;> simp [getEntry, List.find?_cons, h]

theorem getEntry_setEntry_self {β : Type} (m : List (String × β))
    (k : String) (v : β) : getEntry (setEntry m k v) k = some v := by
  simp [setEntry, getEntry_cons]

theorem getEntry_filter_none {β : Type} (m : List (String × β)) (k : String)
    (q : String × β → Bool) (h : ∀ p ∈ m, p.1 = k → q p = false) :
    getEntry (m.filter q) k = none := by
  induction m with
  | nil => rfl
  | cons a m ih =>
    have ih' := ih (fun p hp hk => h p (List.mem_cons_of_mem a hp) hk)
    by_cases hk : a.1 = k
    · have hq := h a (List.mem_cons_self a m) hk
      simp [List.filter_cons, hq, ih']
    · by_cases hq : q a = true
      · simp [List.filter_cons, hq, getEntry_cons, hk, ih']
      · simp only [Bool.not_eq_true] at hq
        simp [List.filter_cons, hq, ih']

theorem getEntry_delEntry_self {β : Type} (m : List (String × β))
    (k : String) : getEntry (delEntry m k) k = none := by
  refine getEntry_filter_none m k _ (fun p _ hk => ?_)
  simp [hk]

/-! ## C1: busy detection at call initiation -/

/-- C1 counterexample: in `stCallerBusy`, caller A is already a
participant of the active session `c0` (with X), yet `call:initiate`
towards the idle online receiver B emits no busy error — it notifies B
and A and creates a second Active Call Session, after which two active
sessions contain A. -/
theorem busy_caller_initiate_creates_second_session :
    (handleCallInitiate stCallerBusy "A" "sA" "B" CallType.video "c1").2 =
      [⟨"sB", Payload.callIncoming "c1" "A" CallType.video⟩,
       ⟨"sA", Payload.callInitiated "c1" "B"⟩]
    ∧ ((handleCallInitiate stCallerBusy "A" "sA" "B" CallType.video
          "c1").1.activeCalls.filter
            (fun p => p.2.participants.contains "A")).length = 2
    ∧ (stCallerBusy.activeCalls.filter
        (fun p => p.2.participants.contains "A")).length = 1 := by
  decide

/-- C1 (amended): with the receiver online, `call:initiate` returns the
busy error and changes nothing iff the *receiver* is already a
participant of some Active Call Session; the caller's own sessions are
not checked.  When the receiver is free, a `ringing` Call Record and a
new Active Call Session are created and both parties are notified. -/
theorem call_initiate_checks_receiver_busy_only (st : ServerState)
    (uid : UserId) (sock : SocketId) (receiverId : UserId) (ct : CallType)
    (newCallId : CallId) (rsid : SocketId)
    (hOnline : getEntry st.onlineUsers receiverId = some rsid) :
    (st.activeCalls.any (fun p => p.2.participants.contains receiverId) = true →
       handleCallInitiate st uid sock receiverId ct newCallId =
         (st, [⟨sock, Payload.callError "User is busy on another call"⟩]))
  ∧ (st.activeCalls.any (fun p => p.2.participants.contains receiverId) = false →
       handleCallInitiate st uid sock receiverId ct newCallId =
         ({ st with
             calls := st.calls ++
               [{ id := newCallId, caller := uid, receiver := receiverId,
                  type := ct, status := CallStatus.ringing }],
             activeCalls := setEntry st.activeCalls newCallId
               ⟨{ id := newCallId, caller := uid, receiver := receiverId,
                  type := ct, status := CallStatus.ringing },
                [uid, receiverId]⟩ },
          [⟨rsid, Payload.callIncoming newCallId uid ct⟩,
           ⟨sock, Payload.callInitiated newCallId receiverId⟩])) := by
  constructor
  · intro hBusy
    simp only [handleCallInitiate, hOnline]
    rw [if_pos hBusy]
  · intro hFree
    simp only [handleCallInitiate, hOnline]
    rw [if_neg (by rw [hFree]; exact Bool.false_ne_true)]
    rfl

/-- Witness for `call_initiate_checks_receiver_busy_only`: in
`stReceiverBusy` the receiver B is mid-call with X, so A's initiation
returns exactly the busy error. -/
theorem call_initiate_checks_receiver_busy_only_witness :
    handleCallInitiate stReceiverBusy "A" "sA" "B" CallType.video "c1" =
      (stReceiverBusy,
       [⟨"sA", Payload.callError "User is busy on another call"⟩]) :=
  (call_initiate_checks_receiver_busy_only stReceiverBusy "A" "sA" "B"
    CallType.video "c1" "sB" (by decide)).1 (by decide)

/-! ## C2: the 30-second missed-call timeout -/

/-- C2: the missed-call timeout acts exactly when the Active Call Session
for the call still exists with status `ringing`: it marks the persisted
record `missed`, discards the session and emits `call:missed` to both
captured sockets; if the session is gone or no longer `ringing` it is a
no-op with no emission.  Moreover every transition out of `ringing`
defuses it: `call:accept` leaves the session status `ongoing`, and
`call:reject`, `call:cancel`, `call:end` and a participant's disconnect
remove the session. -/
theorem ringing_timeout_missed_iff (st : ServerState) (callId : CallId)
    (callerSock rsid : SocketId) :
    (∀ ac, getEntry st.activeCalls callId = some ac →
       ac.call.status = CallStatus.ringing →
       fireMissedTimeout st callId callerSock rsid =
         ({ st with
             calls := callFindByIdAndUpdate st.calls callId (fun c =>
               { c with status := CallStatus.missed,
                        endReason := some EndReason.missed }),
             activeCalls := delEntry st.activeCalls callId },
          [⟨callerSock, Payload.callMissed callId⟩,
           ⟨rsid, Payload.callMissed callId⟩]))
  ∧ ((∀ ac, getEntry st.activeCalls callId = some ac →
        ac.call.status ≠ CallStatus.ringing) →
      fireMissedTimeout st callId callerSock rsid = (st, []))
  ∧ (∀ uid sock now ac,
      getEntry (handleCallAccept st uid sock callId now).1.activeCalls callId
        = some ac → ac.call.status = CallStatus.ongoing)
  ∧ (∀ now,
      getEntry (handleCallReject st callId now).1.activeCalls callId = none)
  ∧ (∀ now,
      getEntry (handleCallCancel st callId now).1.activeCalls callId = none)
  ∧ (∀ uid now,
      getEntry (handleCallEnd st uid callId now).1.activeCalls callId = none)
  ∧ (∀ uid now,
      (∀ p ∈ st.activeCalls, p.1 = callId →
         p.2.participants.contains uid = true) →
      getEntry (handleDisconnect st uid now).1.activeCalls callId = none) := by
  refine ⟨?_, ?_, ?_, ?_, ?_, ?_, ?_⟩
  · intro ac h hr
    simp [fireMissedTimeout, h, hr]
  · intro hnr
    cases hgot : getEntry st.activeCalls callId with
    | none => simp [fireMissedTimeout, hgot]
    | some ac => simp [fireMissedTimeout, hgot, hnr ac hgot]
  · intro uid sock now ac h
    cases hgot : getEntry st.activeCalls callId with
    | none =>
        simp [handleCallAccept, hgot] at h
    | some ac0 =>
        rw [handleCallAccept, hgot] at h
        simp only [getEntry_setEntry_self, Option.some.injEq] at h
        subst h
        rfl
  · intro now
    cases hgot : getEntry st.activeCalls callId with
    | none => simp [handleCallReject, hgot]
    | some ac0 => simp [handleCallReject, hgot, getEntry_delEntry_self]
  · intro now
    cases hgot : getEntry st.activeCalls callId with
    | none => simp [handleCallCancel, hgot]
    | some ac0 => simp [handleCallCancel, hgot, getEntry_delEntry_self]
  · intro uid now
    cases hgot : getEntry st.activeCalls callId with
    | none => simp [handleCallEnd, hgot]
    | some ac0 => simp [handleCallEnd, hgot, getEntry_delEntry_self]
  · intro uid now hall
    simp only [handleDisconnect]
    exact getEntry_filter_none _ _ _ (fun p hp hk => by
      simp only [hall p hp hk, Bool.not_true])

/-- Witness for `ringing_timeout_missed_iff`: on the concrete ringing
state the timeout marks `c1` missed and notifies both sockets, while
after `call:accept` the same timeout is a no-op. -/
theorem ringing_timeout_missed_iff_witness :
    fireMissedTimeout stRingingAB "c1" "sA" "sB" =
      ({ stRingingAB with
          calls := callFindByIdAndUpdate stRingingAB.calls "c1" (fun c =>
            { c with status := CallStatus.missed,
                     endReason := some EndReason.missed }),
          activeCalls := delEntry stRingingAB.activeCalls "c1" },
       [⟨"sA", Payload.callMissed "c1"⟩, ⟨"sB", Payload.callMissed "c1"⟩])
  ∧ fireMissedTimeout (handleCallAccept stRingingAB "B" "sB" "c1" 5000).1
      "c1" "sA" "sB" =
      ((handleCallAccept stRingingAB "B" "sB" "c1" 5000).1, []) := by
  constructor
  · exact (ringing_timeout_missed_iff stRingingAB "c1" "sA" "sB").1
      ⟨ringingAB, ["A", "B"]⟩ (by decide) (by decide)
  · refine (ringing_timeout_missed_iff
      (handleCallAccept stRingingAB "B" "sB" "c1" 5000).1 "c1" "sA" "sB").2.1
      (fun ac h => ?_)
    have hval : getEntry (handleCallAccept stRingingAB "B" "sB" "c1"
        5000).1.activeCalls "c1" =
        some ⟨{ ringingAB with status := CallStatus.ongoing }, ["A", "B"]⟩ := by
      decide
    rw [hval] at h
    injection h with h2
    rw [← h2]
    decide

/-! ## C3: reaction broadcast -/

/-- C3 counterexample: reacting to the existing *group* message `g1`
persists the toggled reaction, but no `message:reaction` broadcast goes
to any group member — the handler fails on the absent `receiver` field
and emits only `reaction:error` to the requester. -/
theorem group_react_no_broadcast :
    handleMessageReact stGroupMsg "B" "sB" "g1" "👍" 100 =
      ({ stGroupMsg with
          messages := [{ mGroup with reactions := [⟨"B", "👍", 100⟩] }] },
       [⟨"sB", Payload.reactionError "Cannot read properties of undefined"⟩]) := by
  decide

/-- C3 (amended): after the reaction toggle is persisted, the updated
reaction set is broadcast to the message's sender and receiver (each if
online) for a *direct* message; for a group message the persisted toggle
is followed by a `reaction:error` to the requester only, and no group
broadcast occurs. -/
theorem react_persist_then_notify (st : ServerState) (uid : UserId)
    (sock : SocketId) (mid : MessageId) (emoji : String) (now : Time)
    (msg : Message) (hfind : findMessage st.messages mid = some msg) :
    (∀ rid, msg.receiver = some rid →
       handleMessageReact st uid sock mid emoji now =
         ({ st with
             messages := saveMessage st.messages
               { msg with
                   reactions := toggleReactions msg.reactions uid emoji now } },
          optEmit (getEntry st.onlineUsers msg.sender)
              (Payload.msgReaction mid
                (toggleReactions msg.reactions uid emoji now) uid)
            ++ optEmit (getEntry st.onlineUsers rid)
              (Payload.msgReaction mid
                (toggleReactions msg.reactions uid emoji now) uid)))
  ∧ (msg.receiver = none →
       handleMessageReact st uid sock mid emoji now =
         ({ st with
             messages := saveMessage st.messages
               { msg with
                   reactions := toggleReactions msg.reactions uid emoji now } },
          [⟨sock, Payload.reactionError
              "Cannot read properties of undefined"⟩])) := by
  constructor
  · intro rid hrecv
    simp [handleMessageReact, hfind, hrecv]
  · intro hrecv
    simp [handleMessageReact, hfind, hrecv]

/-- Witness for `react_persist_then_notify`: B reacts to the direct
message `m1` from A; both are online, so both sockets receive the
updated reaction set. -/
theorem react_persist_then_notify_witness :
    handleMessageReact stDirect "B" "sB" "m1" "👍" 100 =
      ({ stDirect with
          messages := [{ mDirect with reactions := [⟨"B", "👍", 100⟩] }] },
       [⟨"sA", Payload.msgReaction "m1" [⟨"B", "👍", 100⟩] "B"⟩,
        ⟨"sB", Payload.msgReaction "m1" [⟨"B", "👍", 100⟩] "B"⟩]) := by
  have h := (react_persist_then_notify stDirect "B" "sB" "m1" "👍" 100
    mDirect (by decide)).1 "B" (by decide)
  rw [h]
  decide

/-! ## C4: edit authorization and time window -/

/-- C4 counterexample: A is the sender of the existing group message `g1`
and edits it immediately (elapsed time 10 ms ≤ 15 minutes), yet the edit
does not succeed: the handler emits a generic error (not an
authorization or time-window error), the state is unchanged and the
content keeps its old value. -/
theorem own_group_message_edit_fails :
    mGroup.sender = "A"
  ∧ 10 - mGroup.createdAt ≤ fifteenMinutes
  ∧ handleMessageEdit stGroupMsg "A" "sA" "g1" "new content" 10 =
      (stGroupMsg,
       [⟨"sA", Payload.msgError "Cannot read properties of undefined"⟩])
  ∧ findMessage stGroupMsg.messages "g1" = some mGroup
  ∧ mGroup.content = "hello group" := by
  decide

/-- C4 (amended): for a *direct* message (one with a receiver),
`message:edit` succeeds iff the requester is the original sender and the
elapsed time since creation is at most 15 minutes; on success the
previous content is appended to `editHistory`, the document is updated
(content, isEdited, editedAt) and saved, and `message:edited` is sent to
the receiver (if online) and the requester.  On an authorization or
time-window failure the error goes only to the requester and the state
is unchanged.  (Group messages — no receiver — always fail with a
generic error.) -/
theorem message_edit_window_policy (st : ServerState) (uid : UserId)
    (sock : SocketId) (mid : MessageId) (newContent : String) (now : Time)
    (msg : Message) (rid : UserId)
    (hfind : findMessage st.messages mid = some msg)
    (hrecv : msg.receiver = some rid) :
    (msg.sender ≠ uid →
       handleMessageEdit st uid sock mid newContent now =
         (st, [⟨sock, Payload.msgError "Unauthorized"⟩]))
  ∧ (msg.sender = uid → now - msg.createdAt > fifteenMinutes →
       handleMessageEdit st uid sock mid newContent now =
         (st, [⟨sock,
            Payload.msgError "Edit time limit exceeded (15 minutes)"⟩]))
  ∧ (msg.sender = uid → now - msg.createdAt ≤ fifteenMinutes →
       handleMessageEdit st uid sock mid newContent now =
         ({ st with
             messages := saveMessage st.messages
               { msg with
                   editHistory := msg.editHistory ++ [⟨msg.content, now⟩],
                   content := newContent, isEdited := true,
                   editedAt := some now } },
          optEmit (getEntry st.onlineUsers rid)
              (Payload.msgEdited mid newContent now)
            ++ [⟨sock, Payload.msgEdited mid newContent now⟩])) := by
  refine ⟨?_, ?_, ?_⟩
  · intro hs
    simp [handleMessageEdit, hfind, hs]
  · intro hs ht
    simp [handleMessageEdit, hfind, hs, ht]
  · intro hs ht
    have ht' : ¬(now - msg.createdAt > fifteenMinutes) := not_lt.mpr ht
    simp [handleMessageEdit, hfind, hs, ht', hrecv]

/-- Witness for `message_edit_window_policy`: A edits their own direct
message `m1` within the window; B is online, so both sockets get
`message:edited`, and a non-sender edit by B is rejected. -/
theorem message_edit_window_policy_witness :
    handleMessageEdit stDirect "A" "sA" "m1" "hi there" 10 =
      ({ stDirect with
          messages := [{ mDirect with
            editHistory := [⟨"hi", 10⟩], content := "hi there",
            isEdited := true, editedAt := some 10 }] },
       [⟨"sB", Payload.msgEdited "m1" "hi there" 10⟩,
        ⟨"sA", Payload.msgEdited "m1" "hi there" 10⟩])
  ∧ handleMessageEdit stDirect "B" "sB" "m1" "oops" 10 =
      (stDirect, [⟨"sB", Payload.msgError "Unauthorized"⟩]) := by
  constructor
  · have h := (message_edit_window_policy stDirect "A" "sA" "m1" "hi there"
      10 mDirect "B" (by decide) (by decide)).2.2 (by decide) (by decide)
    rw [h]
    decide
  · exact (message_edit_window_policy stDirect "B" "sB" "m1" "oops"
      10 mDirect "B" (by decide) (by decide)).1 (by decide)

/-! ## C5: delete for everyone -/

/-- C5 counterexample: A is the sender of the existing group message `g1`
and requests delete-for-everyone 10 ms after creation (well inside the
1-hour window), yet the deletion does not succeed: the handler fails on
the absent `receiver` field, the state is unchanged (no placeholder, no
`deletedForEveryone`) and a generic error is emitted. -/
theorem own_group_message_delete_everyone_fails :
    mGroup.sender = "A"
  ∧ 10 - mGroup.createdAt ≤ oneHour
  ∧ handleMessageDelete stGroupMsg "A" "sA" "g1" "everyone" 10 =
      (stGroupMsg,
       [⟨"sA", Payload.msgError "Cannot read properties of undefined"⟩])
  ∧ mGroup.deletedForEveryone = false := by
  decide

/-- C5 (amended): for a *direct* message, delete-for-everyone succeeds
iff the requester is the sender and at most 1 hour has elapsed since
creation; on success the content is replaced by the fixed placeholder
`This message was deleted`, `deletedForEveryone` is set, the document is
saved, and `message:deleted` goes to the receiver (if online) and the
requester.  On failure an error goes only to the requester and the state
is unchanged.  (Group messages — no receiver — always fail with a
generic error.) -/
theorem message_delete_everyone_policy (st : ServerState) (uid : UserId)
    (sock : SocketId) (mid : MessageId) (now : Time)
    (msg : Message) (rid : UserId)
    (hfind : findMessage st.messages mid = some msg)
    (hrecv : msg.receiver = some rid) :
    (msg.sender ≠ uid →
       handleMessageDelete st uid sock mid "everyone" now =
         (st, [⟨sock, Payload.msgError "Unauthorized"⟩]))
  ∧ (msg.sender = uid → now - msg.createdAt > oneHour →
       handleMessageDelete st uid sock mid "everyone" now =
         (st, [⟨sock,
            Payload.msgError "Delete time limit exceeded (1 hour)"⟩]))
  ∧ (msg.sender = uid → now - msg.createdAt ≤ oneHour →
       handleMessageDelete st uid sock mid "everyone" now =
         ({ st with
             messages := saveMessage st.messages
               { msg with
                   deletedForEveryone := true, isDeleted := true,
                   deletedAt := some now,
                   content := "This message was deleted" } },
          optEmit (getEntry st.onlineUsers rid)
              (Payload.msgDeleted mid "everyone")
            ++ [⟨sock, Payload.msgDeleted mid "everyone"⟩])) := by
  refine ⟨?_, ?_, ?_⟩
  · intro hs
    simp [handleMessageDelete, hfind, hs]
  · intro hs ht
    simp [handleMessageDelete, hfind, hs, ht]
  · intro hs ht
    have ht' : ¬(now - msg.createdAt > oneHour) := not_lt.mpr ht
    simp [handleMessageDelete, hfind, hs, ht', hrecv]

/-- Witness for `message_delete_everyone_policy`: A deletes their own
direct message `m1` for everyone within the window; B is online and gets
notified, and B's own attempt is rejected as unauthorized. -/
theorem message_delete_everyone_policy_witness :
    handleMessageDelete stDirect "A" "sA" "m1" "everyone" 10 =
      ({ stDirect with
          messages := [{ mDirect with
            deletedForEveryone := true, isDeleted := true,
            deletedAt := some 10,
            content := "This message was deleted" }] },
       [⟨"sB", Payload.msgDeleted "m1" "everyone"⟩,
        ⟨"sA", Payload.msgDeleted "m1" "everyone"⟩])
  ∧ handleMessageDelete stDirect "B" "sB" "m1" "everyone" 10 =
      (stDirect, [⟨"sB", Payload.msgError "Unauthorized"⟩]) := by
  constructor
  · have h := (message_delete_everyone_policy stDirect "A" "sA" "m1"
      10 mDirect "B" (by decide) (by decide)).2.2 (by decide) (by decide)
    rw [h]
    decide
  · exact (message_delete_everyone_policy stDirect "B" "sB" "m1"
      10 mDirect "B" (by decide) (by decide)).1 (by decide)

/-! ## C6: delete for me -/

/-- C6 counterexample: B is the receiver of the direct message `m1` —
hence a participant — yet B's `message:delete` with scope `me` fails
with the authorization error and appends no per-user deletion marker:
the sender-only check runs before the scope branch. -/
theorem receiver_delete_for_me_unauthorized :
    mDirect.receiver = some "B"
  ∧ handleMessageDelete stDirect "B" "sB" "m1" "me" 10 =
      (stDirect, [⟨"sB", Payload.msgError "Unauthorized"⟩])
  ∧ (findMessage stDirect.messages "m1").map Message.deletedBy
      = some [] := by
  decide

/-- C6 (amended): the sender-only authorization check applies to *both*
scopes: any `message:delete` by a non-sender — including the receiver
deleting for `me` — fails with `Unauthorized` and changes nothing.  For
the sender, any scope other than `everyone` takes the `me` branch, which
appends a per-user deletion marker for the requester, leaves `content`
and `deletedForEveryone` unchanged, and confirms only to the
requester. -/
theorem message_delete_me_sender_only (st : ServerState) (uid : UserId)
    (sock : SocketId) (mid : MessageId) (deleteType : String) (now : Time)
    (msg : Message) (hfind : findMessage st.messages mid = some msg) :
    (msg.sender ≠ uid →
       handleMessageDelete st uid sock mid deleteType now =
         (st, [⟨sock, Payload.msgError "Unauthorized"⟩]))
  ∧ (msg.sender = uid → deleteType ≠ "everyone" →
       handleMessageDelete st uid sock mid deleteType now =
         ({ st with
             messages := saveMessage st.messages
               { msg with deletedBy := msg.deletedBy ++ [⟨uid, now⟩] } },
          [⟨sock, Payload.msgDeleted mid "me"⟩])
       ∧ ({ msg with deletedBy := msg.deletedBy ++ [⟨uid, now⟩]
            : Message }).content = msg.content
       ∧ ({ msg with deletedBy := msg.deletedBy ++ [⟨uid, now⟩]
            : Message }).deletedForEveryone = msg.deletedForEveryone) := by
  constructor
  · intro hs
    simp [handleMessageDelete, hfind, hs]
  · intro hs hscope
    refine ⟨?_, rfl, rfl⟩
    simp [handleMessageDelete, hfind, hs, hscope]

/-- Witness for `message_delete_me_sender_only`: the sender A deletes
`m1` for themselves; a marker for A is appended and only A is
notified. -/
theorem message_delete_me_sender_only_witness :
    handleMessageDelete stDirect "A" "sA" "m1" "me" 10 =
      ({ stDirect with
          messages := [{ mDirect with deletedBy := [⟨"A", 10⟩] }] },
       [⟨"sA", Payload.msgDeleted "m1" "me"⟩]) := by
  have h := ((message_delete_me_sender_only stDirect "A" "sA" "m1" "me" 10
    mDirect (by decide)).2 (by decide) (by decide)).1
  rw [h]
  decide

/-! ## C7: idempotence of markRead -/

theorem unreadFrom_markReadAt (s u : UserId) (t : Time) (m : Message) :
    unreadFrom s u (markReadAt t m) = false := by
  simp [unreadFrom, markReadAt]

theorem filter_unread_after_update (s u : UserId) (t : Time)
    (l : List Message) :
    ((l.map (fun m => if unreadFrom s u m then markReadAt t m else m)).filter
      (unreadFrom s u)) = [] := by
  induction l with
  | nil => rfl
  | cons m l ih =>
    by_cases h : unreadFrom s u m = true
    · simp only [List.map_cons, h, if_true, List.filter_cons,
        unreadFrom_markReadAt, Bool.false_eq_true, if_false, ih]
    · simp only [Bool.not_eq_true] at h
      simp only [List.map_cons, h, Bool.false_eq_true, if_false,
        List.filter_cons, ih]

theorem condRead_map_stable (s u : UserId) (t1 t2 : Time)
    (l : List Message) :
    ((l.map (fun m => if unreadFrom s u m then markReadAt t1 m else m)).map
      (fun m => if unreadFrom s u m then markReadAt t2 m else m))
    = l.map (fun m => if unreadFrom s u m then markReadAt t1 m else m) := by
  induction l with
  | nil => rfl
  | cons m l ih =>
    by_cases h : unreadFrom s u m = true
    · simp only [List.map_cons, h, if_true, unreadFrom_markReadAt,
        Bool.false_eq_true, if_false, ih]
    · simp only [Bool.not_eq_true] at h
      simp only [List.map_cons, h, Bool.false_eq_true, if_false, ih]

/-- C7: the bulk `messages:read` is idempotent — running it a second
time (at any later timestamp) changes no persisted message and emits no
notification — whereas the single `message:read` is *not*: whenever the
sender is online it unconditionally rewrites the document's status and
`readAt` via `findByIdAndUpdate` and re-emits the read receipt,
regardless of whether the message was already read. -/
theorem markRead_bulk_idempotent_single_unconditional :
    (∀ (st : ServerState) (uid senderId : UserId) (t1 t2 : Time),
       handleMessagesRead (handleMessagesRead st uid senderId t1).1
           uid senderId t2
         = ((handleMessagesRead st uid senderId t1).1, []))
  ∧ (∀ (st : ServerState) (mid : MessageId) (senderId : UserId) (now : Time)
       (sid : SocketId), getEntry st.onlineUsers senderId = some sid →
       handleMessageRead st mid senderId now =
         ({ st with
             messages := messageFindByIdAndUpdate st.messages mid (fun m =>
               { m with status := MsgStatus.read, readAt := some now }) },
          [⟨sid, Payload.msgStatus mid MsgStatus.read⟩])) := by
  constructor
  · intro st uid senderId t1 t2
    simp only [handleMessagesRead, filter_unread_after_update,
      condRead_map_stable, List.length_nil]
    cases getEntry st.onlineUsers senderId <;> simp
  · intro st mid senderId now sid h
    simp [handleMessageRead, h, optEmit]

/-- Witness for `markRead_bulk_idempotent_single_unconditional`: on the
state holding the already-read message `m1` (readAt = 500), a repeated
bulk mark is a no-op, while a repeated single `message:read` at t = 900
rewrites the document and re-notifies A. -/
theorem markRead_bulk_idempotent_single_unconditional_witness :
    handleMessagesRead (handleMessagesRead stReadMsg "B" "A" 600).1
        "B" "A" 700
      = ((handleMessagesRead stReadMsg "B" "A" 600).1, [])
  ∧ handleMessageRead stReadMsg "m1" "A" 900 =
      ({ stReadMsg with
          messages := messageFindByIdAndUpdate stReadMsg.messages "m1"
            (fun m =>
              { m with status := MsgStatus.read, readAt := some 900 }) },
       [⟨"sA", Payload.msgStatus "m1" MsgStatus.read⟩]) :=
  ⟨markRead_bulk_idempotent_single_unconditional.1 stReadMsg "B" "A" 600 700,
   markRead_bulk_idempotent_single_unconditional.2 stReadMsg "m1" "A" 900
     "sA" (by decide)⟩

/-- C7 counterexample: `m1` is already `read` with `readAt = 500`, yet a
second single `message:read` at t = 900 is not a no-op: the persisted
`readAt` becomes 900 and the read receipt is emitted to A again. -/
theorem single_markRead_not_idempotent :
    mReadAB.status = MsgStatus.read
  ∧ mReadAB.readAt = some 500
  ∧ handleMessageRead stReadMsg "m1" "A" 900 =
      ({ stReadMsg with messages := [{ mReadAB with readAt := some 900 }] },
       [⟨"sA", Payload.msgStatus "m1" MsgStatus.read⟩])
  ∧ ({ mReadAB with readAt := some 900 } : Message) ≠ mReadAB := by
  decide

/-! ## C8: online delivery status -/

/-- C8 counterexample: A sends "hi" to the online user B.  B's
`message:receive` payload carries status `sent`, not `delivered` — the
status is only updated (and persisted) *after* the emission — while A's
`message:sent` confirmation carries the persisted `delivered` message. -/
theorem receive_payload_status_sent :
    (handleMessageSend stNoMessages "A" "sA" "B" "hi" MsgType.text none
        0 "m1").2 =
      [⟨"sB", Payload.msgReceive
          { id := "m1", sender := "A", receiver := some "B",
            content := "hi", createdAt := 0 }⟩,
       ⟨"sA", Payload.msgSent
          { id := "m1", sender := "A", receiver := some "B",
            content := "hi", status := MsgStatus.delivered,
            createdAt := 0 }⟩]
  ∧ ({ id := "m1", sender := "A", receiver := some "B", content := "hi",
       createdAt := 0 } : Message).status = MsgStatus.sent
  ∧ ({ id := "m1", sender := "A", receiver := some "B", content := "hi",
       createdAt := 0 } : Message).status ≠ MsgStatus.delivered := by
  decide

/-- C8 (amended): when the receiver is online at send time, the receiver
gets `message:receive` whose payload still has status `sent` (the
snapshot taken before the delivery update), the message is then
persisted with status `delivered`, and the sender gets `message:sent`
carrying the final persisted (`delivered`) message. -/
theorem send_online_delivery (st : ServerState) (uid : UserId)
    (sock : SocketId) (receiverId : UserId) (content : String)
    (type : MsgType) (replyTo : Option MessageId) (now : Time)
    (newId : MessageId) (rsid : SocketId)
    (hOnline : getEntry st.onlineUsers receiverId = some rsid) :
    handleMessageSend st uid sock receiverId content type replyTo now newId =
      ({ st with
          messages := saveMessage
            (st.messages ++
              [{ id := newId, sender := uid, receiver := some receiverId,
                 content := content, type := type, replyTo := replyTo,
                 createdAt := now }])
            { id := newId, sender := uid, receiver := some receiverId,
              content := content, type := type, replyTo := replyTo,
              status := MsgStatus.delivered, createdAt := now } },
       [⟨rsid, Payload.msgReceive
           { id := newId, sender := uid, receiver := some receiverId,
             content := content, type := type, replyTo := replyTo,
             createdAt := now }⟩,
        ⟨sock, Payload.msgSent
           { id := newId, sender := uid, receiver := some receiverId,
             content := content, type := type, replyTo := replyTo,
             status := MsgStatus.delivered, createdAt := now }⟩]) := by
  simp [handleMessageSend, hOnline]

/-- Witness for `send_online_delivery` at the concrete two-user state. -/
theorem send_online_delivery_witness :
    handleMessageSend stNoMessages "A" "sA" "B" "hi" MsgType.text none
        0 "m1" =
      ({ stNoMessages with
          messages := [{ id := "m1", sender := "A", receiver := some "B",
                         content := "hi", status := MsgStatus.delivered,
                         createdAt := 0 }] },
       [⟨"sB", Payload.msgReceive
           { id := "m1", sender := "A", receiver := some "B",
             content := "hi", createdAt := 0 }⟩,
        ⟨"sA", Payload.msgSent
           { id := "m1", sender := "A", receiver := some "B",
             content := "hi", status := MsgStatus.delivered,
             createdAt := 0 }⟩]) := by
  have h := send_online_delivery stNoMessages "A" "sA" "B" "hi"
    MsgType.text none 0 "m1" "sB" (by decide)
  rw [h]
  decide

/-! ## C9: call accept precondition -/

/-- C9 counterexample: the session for `c1` has in-memory status
`ongoing` (it was already accepted at t = 1000, startTime 1000), yet a
second `call:accept` is *not* a no-op: it rewrites the persisted record's
`startTime` to 2000 and re-notifies both parties.  The `ringing`
precondition is never checked. -/
theorem accept_nonringing_still_transitions :
    (getEntry stOngoingAB.activeCalls "c1").map (fun ac => ac.call.status)
      = some CallStatus.ongoing
  ∧ (handleCallAccept stOngoingAB "B" "sB" "c1" 2000).1.calls =
      [{ ongoingAB with startTime := some 2000 }]
  ∧ (handleCallAccept stOngoingAB "B" "sB" "c1" 2000).2 =
      [⟨"sA", Payload.callAccepted "c1" "B"⟩,
       ⟨"sB", Payload.callStarted "c1"⟩]
  ∧ ongoingAB.startTime ≠ some 2000 := by
  decide

/-- C9 (amended): `call:accept` transitions the persisted record to
`ongoing` and sets `startTime` whenever an Active Call Session exists
for the callId, *regardless of the session's status* (a non-`ringing`
session is accepted again, overwriting `startTime`); only when no
session exists does the handler emit `call:error` and change nothing. -/
theorem call_accept_session_only_policy (st : ServerState) (uid : UserId)
    (sock : SocketId) (callId : CallId) (now : Time) :
    (getEntry st.activeCalls callId = none →
       handleCallAccept st uid sock callId now =
         (st, [⟨sock, Payload.callError "Call not found or expired"⟩]))
  ∧ (∀ ac, getEntry st.activeCalls callId = some ac →
       handleCallAccept st uid sock callId now =
         ({ st with
             calls := callFindByIdAndUpdate st.calls callId (fun c =>
               { c with status := CallStatus.ongoing,
                        startTime := some now }),
             activeCalls := setEntry st.activeCalls callId
               { ac with
                   call := { ac.call with
                     status := CallStatus.ongoing } } },
          optEmit (getEntry st.onlineUsers ac.call.caller)
              (Payload.callAccepted callId uid)
            ++ [⟨sock, Payload.callStarted callId⟩])) := by
  constructor
  · intro h
    simp [handleCallAccept, h]
  · intro ac h
    simp [handleCallAccept, h]

/-- Witness for `call_accept_session_only_policy`: accepting the ringing
call `c1` in the concrete state, and accepting an unknown call id. -/
theorem call_accept_session_only_policy_witness :
    handleCallAccept stRingingAB "B" "sB" "c1" 1000 =
      ({ stRingingAB with
          calls := callFindByIdAndUpdate stRingingAB.calls "c1" (fun c =>
            { c with status := CallStatus.ongoing,
                     startTime := some 1000 }),
          activeCalls := setEntry stRingingAB.activeCalls "c1"
            ⟨{ ringingAB with status := CallStatus.ongoing }, ["A", "B"]⟩ },
       [⟨"sA", Payload.callAccepted "c1" "B"⟩,
        ⟨"sB", Payload.callStarted "c1"⟩])
  ∧ handleCallAccept stRingingAB "B" "sB" "nope" 1000 =
      (stRingingAB,
       [⟨"sB", Payload.callError "Call not found or expired"⟩]) := by
  constructor
  · have h := (call_accept_session_only_policy stRingingAB "B" "sB" "c1"
      1000).2 ⟨ringingAB, ["A", "B"]⟩ (by decide)
    rw [h]
    decide
  · exact (call_accept_session_only_policy stRingingAB "B" "sB" "nope"
      1000).1 (by decide)

/-! ## C10: call duration on end -/

/-- C10: in the full initiate → accept (t = 1000) → end (t = 66000)
trace, the persisted Call Record keeps `duration = 0` even though
`endTime − startTime` is 65 whole seconds: `call:end` writes `endTime`
through `findByIdAndUpdate`, which bypasses the model's `pre('save')`
hook, the only place `duration` is ever computed.  Applying the hook's
computation (`callPreSave`) to the final record would yield 65. -/
theorem call_end_duration_stays_zero :
    stAfterEnd.calls =
      [{ id := "c1", caller := "A", receiver := "B",
         type := CallType.video, status := CallStatus.ended,
         startTime := some 1000, endTime := some 66000, duration := 0,
         endedBy := some "A", endReason := some EndReason.completed }]
  ∧ (callPreSave
      { id := "c1", caller := "A", receiver := "B",
        type := CallType.video, status := CallStatus.ended,
        startTime := some 1000, endTime := some 66000, duration := 0,
        endedBy := some "A",
        endReason := some EndReason.completed }).duration = 65 := by
  decide

end ChatMail
